import Mathlib

/-!
# Verification of the Alpaca API session orchestration (src/api/server.py)

Shallow embedding of the WebSocket session-orchestration core of
`src/api/server.py`:

* `QueueMsg` / `relayRun` model the queue-reader helper
  `handle_interaction_queue` (lines 158-182): it repeatedly takes a message
  from the interaction queue, forwards it to the client, and breaks after
  forwarding a message with `type == "status"` and `state` in the terminal
  set.  `relayRun` maps the list of enqueued messages to the pair
  (messages delivered to the client, messages never taken from the queue);
  it models the path where every delivery succeeds and the task is not
  externally cancelled.
* `Session` models the per-connection globals `current_interaction_task`,
  `queue_reader_task`, `interaction_queue` (lines 45-47), task handles being
  identified by an id plus a `done` flag (as observed by `task.done()`); the
  `fresh` counter supplies ids for newly created tasks/queues.
* `Alpaca` models the observable behaviour of the external
  `alpaca_instance` backend as far as the command handlers consult it.
* `step` models one iteration of the `websocket_endpoint` receive loop
  (lines 210-400): given the (possibly uninitialized) backend, the current
  session state and the parsed command, it returns the new session state
  together with the observable effects (messages sent to the client,
  tasks spawned, queues created, cancellation requests).
-/

/-- A message placed on the interaction queue by the worker.  The relay only
inspects the `"type"` and `"state"` fields via `.get`, which yields `None`
when absent; `payload` stands for the rest of the JSON dict so that distinct
messages stay distinct. -/
structure QueueMsg where
  mtype : Option String
  mstate : Option String
  payload : Nat
deriving DecidableEq, Repr

/-- The terminal states recognized at line 166 of server.py. -/
def terminalStates : List String :=
  ["Idle", "Error", "Interrupted", "Cancelled", "Disabled"]

/-- `message.get("type") == "status" and message.get("state") in [...]`
(server.py line 166). -/
def QueueMsg.isTerminal (m : QueueMsg) : Bool :=
  m.mtype = some "status" &&
    (match m.mstate with
     | some st => terminalStates.contains st
     | none => false)

/-- `handle_interaction_queue` (server.py lines 158-182) on a finite list of
enqueued messages: first component is the list of messages forwarded to the
client in order; second component is the suffix never taken from the queue.
The loop sends each message before testing terminality, and breaks right
after forwarding a terminal one. -/
def relayRun : List QueueMsg → List QueueMsg × List QueueMsg
  | [] => ([], [])
  | m :: rest =>
    if m.isTerminal then
      ([m], rest)
    else
      let p := relayRun rest
      (m :: p.1, p.2)

/-- A handle to a spawned asyncio task: its identity and whether
`task.done()` currently reports completion. -/
structure TaskHandle where
  id : Nat
  done : Bool
deriving DecidableEq, Repr

/-- The per-connection mutable globals of server.py (lines 45-47), plus a
counter supplying fresh ids for newly created tasks and queues. -/
structure Session where
  currentInteractionTask : Option TaskHandle
  queueReaderTask : Option TaskHandle
  interactionQueue : Option Nat
  fresh : Nat
deriving DecidableEq, Repr

/-- `current_interaction_task and not current_interaction_task.done()` —
the guard used at lines 225, 294 and 334 of server.py. -/
def Session.busy (s : Session) : Bool :=
  match s.currentInteractionTask with
  | some t => !t.done
  | none => false

/-- Exception raised while creating the voice worker task (server.py lines
247-255): the handler distinguishes `AttributeError` from other exceptions
(lines 262 and 271). -/
inductive StartFailure
  | attrError (msg : String)
  | otherError (msg : String)
deriving DecidableEq, Repr

/-- Behaviour of `run_single_text_interaction` and the subsequent chunk
iteration (server.py lines 342-348): either it yields the full chunk list,
or it raises `AttributeError` / a generic exception after yielding a prefix
of chunks. -/
inductive TextRun
  | ok (chunks : List String)
  | attrError (pre : List String) (msg : String)
  | exn (pre : List String) (msg : String)
deriving DecidableEq, Repr

/-- The aspects of the global `alpaca_instance` that the command handlers
observe. -/
structure Alpaca where
  /-- An exception raised while creating the voice interaction task, if any
  (e.g. a missing `interaction_handler` attribute raises `AttributeError`
  at line 248). -/
  startFailure : Option StartFailure
  /-- `hasattr(alpaca_instance, "interaction_handler")` (line 340). -/
  hasInteractionHandler : Bool
  /-- Behaviour of the text-interaction generator (lines 342-348). -/
  textRun : TextRun
  /-- `hasattr(alpaca_instance, "output_handler")` (line 366). -/
  hasOutputHandler : Bool
  /-- The output handler has a callable `interrupt` attribute (line 368). -/
  outputHandlerHasInterrupt : Bool
  /-- `output_handler.interrupt()` raises (line 373). -/
  interruptRaises : Bool
deriving DecidableEq, Repr

/-- A JSON message sent to the client via `websocket.send_json`. -/
inductive OutMsg
  | error (message : String) (state : Option String)
  | info (message : String)
  | status (state : String) (message : Option String) (finalResponse : Option String)
  | llmChunk (text : String)
deriving DecidableEq, Repr

/-- A parsed client command: the `action` field together with the fields
each handler reads from the JSON dict. -/
inductive Command
  | start (mode : Option String)
  | stop
  | sendText (text : Option String)
  | interrupt
  | toggleVadInterrupt (enabled : Bool)
  | other (action : Option String)
deriving DecidableEq, Repr

/-- Observable effects of handling one command. -/
structure Effects where
  /-- Messages sent to the client, in order. -/
  sent : List OutMsg
  /-- Number of interaction worker tasks created. -/
  spawnedWorkers : Nat
  /-- Number of queue reader (relay) tasks created. -/
  spawnedReaders : Nat
  /-- Number of interaction queues created. -/
  queuesCreated : Nat
  /-- Ids of tasks on which `.cancel()` was called, in order. -/
  cancelRequests : List Nat
deriving DecidableEq, Repr

def emptyEffects : Effects :=
  { sent := [], spawnedWorkers := 0, spawnedReaders := 0,
    queuesCreated := 0, cancelRequests := [] }

/-- The `action == "start"` branch (server.py lines 221-288). -/
def handleStart (a : Alpaca) (s : Session) (mode : Option String) :
    Session × Effects :=
  let modeVal := mode.getD "voice"
  if s.busy then
    (s, { emptyEffects with
            sent := [.error "An interaction is already in progress." (some "Busy")] })
  else if modeVal = "voice" then
    match a.startFailure with
    | none =>
      ({ currentInteractionTask := some ⟨s.fresh + 2, false⟩,
         queueReaderTask := some ⟨s.fresh + 1, false⟩,
         interactionQueue := some s.fresh,
         fresh := s.fresh + 3 },
       { emptyEffects with
           spawnedWorkers := 1, spawnedReaders := 1, queuesCreated := 1 })
    | some (.attrError msg) =>
      ({ currentInteractionTask := none, queueReaderTask := none,
         interactionQueue := none, fresh := s.fresh + 2 },
       { emptyEffects with
           sent := [.error ("Server configuration error: " ++ msg) (some "Error")],
           spawnedReaders := 1, queuesCreated := 1,
           cancelRequests := [s.fresh + 1] })
    | some (.otherError msg) =>
      ({ currentInteractionTask := none, queueReaderTask := none,
         interactionQueue := none, fresh := s.fresh + 2 },
       { emptyEffects with
           sent := [.error ("Failed to start interaction: " ++ msg) (some "Error")],
           spawnedReaders := 1, queuesCreated := 1,
           cancelRequests := [s.fresh + 1] })
  else if modeVal = "text" then
    (s, { emptyEffects with
            sent := [.info "Use \x27send_text\x27 action for text interactions."] })
  else
    (s, { emptyEffects with
            sent := [.error ("Unsupported start mode: " ++ modeVal) (some "Error")] })

/-- The `action == "stop"` branch (server.py lines 291-323). -/
def handleStop (s : Session) : Session × Effects :=
  let cleared : Session :=
    { s with currentInteractionTask := none, queueReaderTask := none,
             interactionQueue := none }
  match s.currentInteractionTask with
  | some t =>
    if !t.done then
      (cleared,
       { emptyEffects with
           cancelRequests := [t.id],
           sent := [.info "Stop command processed. Interaction cancelled."] })
    else
      (cleared,
       { emptyEffects with
           sent := [.status "Idle"
                      (some "Stop command received, nothing active to stop.") none] })
  | none =>
    (cleared,
     { emptyEffects with
         sent := [.status "Idle"
                    (some "Stop command received, nothing active to stop.") none] })

/-- `if not text` on an optional JSON field: true for an absent field and
for the empty string (server.py line 328). -/
def emptyText (t : Option String) : Bool :=
  match t with
  | none => true
  | some x => x = ""

/-- The `llm_chunk` messages produced by the loop at lines 344-348: empty
chunks are skipped. -/
def textChunkMsgs (cs : List String) : List OutMsg :=
  (cs.filter (fun c => c ≠ "")).map (fun c => .llmChunk c)

/-- `full_response` accumulated at line 346 (only non-empty chunks are
appended). -/
def fullResponse (cs : List String) : String :=
  String.join (cs.filter (fun c => c ≠ ""))

/-- The `action == "send_text"` branch (server.py lines 326-359). -/
def handleSendText (a : Alpaca) (s : Session) (t : Option String) :
    Session × Effects :=
  if emptyText t then
    (s, { emptyEffects with
            sent := [.error "Received empty text for \x27send_text\x27 action."
                       (some "Idle")] })
  else if s.busy then
    (s, { emptyEffects with
            sent := [.error "Cannot send text while voice interaction is active."
                       (some "Busy")] })
  else if !a.hasInteractionHandler then
    (s, { emptyEffects with
            sent := [.status "Processing" none none,
                     .error ("Server configuration error: Alpaca instance lacks an \x27interaction_handler\x27")
                       (some "Error")] })
  else
    match a.textRun with
    | .ok cs =>
      (s, { emptyEffects with
              sent := .status "Processing" none none ::
                (textChunkMsgs cs ++
                  [.status "Idle" none (some (fullResponse cs))]) })
    | .attrError pre msg =>
      (s, { emptyEffects with
              sent := .status "Processing" none none ::
                (textChunkMsgs pre ++
                  [.error ("Server configuration error: " ++ msg) (some "Error")]) })
    | .exn pre msg =>
      (s, { emptyEffects with
              sent := .status "Processing" none none ::
                (textChunkMsgs pre ++
                  [.error ("Error processing text: " ++ msg) (some "Error"),
                   .status "Idle" none none]) })

/-- The `action == "interrupt"` branch (server.py lines 362-385). -/
def handleInterrupt (a : Alpaca) (s : Session) : Session × Effects :=
  let interruptedTts :=
    a.hasOutputHandler && a.outputHandlerHasInterrupt && !a.interruptRaises
  (s, { emptyEffects with
          sent := [.info (if interruptedTts then
                            "Interrupt signal sent to TTS handler."
                          else
                            "Interrupt received, but TTS handler could not be signalled.")] })

/-- The `action == "toggle_vad_interrupt"` branch (server.py lines 388-395). -/
def handleToggleVad (s : Session) (enabled : Bool) : Session × Effects :=
  (s, { emptyEffects with
          sent := [.info ("VAD Interrupt Toggled: " ++
                     (if enabled then "True" else "False") ++ " (Server logic TBD)")] })

/-- The final `else` branch (server.py lines 397-399); Python prints `None`
for an absent action. -/
def handleUnknown (s : Session) (act : Option String) : Session × Effects :=
  (s, { emptyEffects with
          sent := [.error ("Unknown action: " ++ act.getD "None") none] })

/-- One iteration of the receive loop of `websocket_endpoint` (server.py
lines 210-400): the uninitialized-backend check at lines 216-218 precedes
every action branch. -/
def step (alpaca : Option Alpaca) (s : Session) (c : Command) :
    Session × Effects :=
  match alpaca with
  | none =>
    (s, { emptyEffects with
            sent := [.error "Alpaca assistant not initialized." (some "Error")] })
  | some a =>
    match c with
    | .start mode => handleStart a s mode
    | .stop => handleStop s
    | .sendText t => handleSendText a s t
    | .interrupt => handleInterrupt a s
    | .toggleVadInterrupt e => handleToggleVad s e
    | .other act => handleUnknown s act

/-! ## Concrete fixtures used by witnesses and counterexamples -/

/-- A fully functional backend instance. -/
def alpacaOk : Alpaca :=
  { startFailure := none, hasInteractionHandler := true,
    textRun := .ok ["Hello", " world"], hasOutputHandler := true,
    outputHandlerHasInterrupt := true, interruptRaises := false }

/-- Session with no stored handles (freshly connected). -/
def idleSession : Session :=
  { currentInteractionTask := none, queueReaderTask := none,
    interactionQueue := none, fresh := 0 }

/-- Session with a live (not done) worker and reader. -/
def busySession : Session :=
  { currentInteractionTask := some ⟨2, false⟩, queueReaderTask := some ⟨1, false⟩,
    interactionQueue := some 0, fresh := 3 }

/-- Session holding a completed (done) worker handle and a still-live
reader, as left behind after a worker finished naturally with the handles
never reset. -/
def staleSession : Session :=
  { currentInteractionTask := some ⟨2, true⟩, queueReaderTask := some ⟨1, false⟩,
    interactionQueue := some 0, fresh := 3 }

/-- A status queue message. -/
def statusMsg (st : String) (k : Nat) : QueueMsg :=
  ⟨some "status", some st, k⟩

/-- A content queue message (never terminal). -/
def chunkMsg (k : Nat) : QueueMsg :=
  ⟨some "content_chunk", none, k⟩

/-! ## Claims -/

/-- C10: any command received while the backend instance is uninitialized
(`None`) is answered with the not-initialized error event and skips all
action handling: no tasks spawned, no queue created, no cancellations, and
the session state is unchanged. -/
theorem c10_uninitialized_backend_rejects_all (s : Session) (c : Command) :
    step none s c =
      (s, { emptyEffects with
              sent := [.error "Alpaca assistant not initialized." (some "Error")] }) :=
  rfl

/-- C1: a `start` command received while an interaction is already active
(the stored worker task exists and is not done) yields only a Busy error
event, spawns no worker or relay, creates no queue, requests no
cancellation, and leaves the session state unchanged — whatever the
requested mode. -/
theorem c1_second_start_rejected_busy (a : Alpaca) (s : Session)
    (mode : Option String) (h : s.busy = true) :
    step (some a) s (.start mode) =
      (s, { emptyEffects with
              sent := [.error "An interaction is already in progress." (some "Busy")] }) := by
  simp [step, handleStart, h]

theorem c1_witness :
    busySession.busy = true ∧
    step (some alpacaOk) busySession (.start (some "voice")) =
      (busySession,
       { emptyEffects with
           sent := [.error "An interaction is already in progress." (some "Busy")] }) :=
  ⟨by decide, c1_second_start_rejected_busy alpacaOk busySession (some "voice") (by decide)⟩

/-- C2: if the worker enqueues a sequence whose only terminal message is
its last element, the relay delivers every message including the terminal
one, and then stops: nothing is left untaken, and any message enqueued
after the terminal one is never taken from the queue nor delivered. -/
theorem c2_terminal_convergence (pre : List QueueMsg) (t : QueueMsg)
    (ht : t.isTerminal = true) (hpre : ∀ m ∈ pre, m.isTerminal = false) :
    relayRun (pre ++ [t]) = (pre ++ [t], []) ∧
    ∀ extra, relayRun (pre ++ t :: extra) = (pre ++ [t], extra) := by
  have key : ∀ (q : List QueueMsg), (∀ m ∈ q, m.isTerminal = false) →
      ∀ extra, relayRun (q ++ t :: extra) = (q ++ [t], extra) := by
    intro q
    induction q with
    | nil =>
      intro _ extra
      simp [relayRun, ht]
    | cons m ms ih =>
      intro hq extra
      have hm : m.isTerminal = false := hq m (by simp)
      have ihx := ih (fun x hx => hq x (by simp [hx])) extra
      simp [relayRun, hm, ihx]
  exact ⟨key pre hpre [], key pre hpre⟩

theorem c2_witness :
    (statusMsg "Idle" 2).isTerminal = true ∧
    (∀ m ∈ [chunkMsg 0, chunkMsg 1], m.isTerminal = false) ∧
    relayRun [chunkMsg 0, chunkMsg 1, statusMsg "Idle" 2] =
      ([chunkMsg 0, chunkMsg 1, statusMsg "Idle" 2], []) ∧
    relayRun [chunkMsg 0, chunkMsg 1, statusMsg "Idle" 2, chunkMsg 3] =
      ([chunkMsg 0, chunkMsg 1, statusMsg "Idle" 2], [chunkMsg 3]) := by
  refine ⟨by decide, by decide, ?_, ?_⟩
  · exact (c2_terminal_convergence [chunkMsg 0, chunkMsg 1] (statusMsg "Idle" 2)
      (by decide) (by decide)).1
  · exact (c2_terminal_convergence [chunkMsg 0, chunkMsg 1] (statusMsg "Idle" 2)
      (by decide) (by decide)).2 [chunkMsg 3]

/-- C3: the relay delivers messages in exactly the order the worker
enqueued them — the enqueued sequence equals the delivered list followed by
the never-taken remainder — and if anything was left undelivered, the
delivered list ends in a terminal message: the only drops are messages
enqueued after a terminal one. -/
theorem c3_order_preservation (evs : List QueueMsg) :
    evs = (relayRun evs).1 ++ (relayRun evs).2 ∧
    ((relayRun evs).2 ≠ [] →
      ∃ front t, (relayRun evs).1 = front ++ [t] ∧ t.isTerminal = true) := by
  induction evs with
  | nil => simp [relayRun]
  | cons m rest ih =>
    by_cases hm : m.isTerminal
    · refine ⟨by simp [relayRun, hm], ?_⟩
      intro _
      exact ⟨[], m, by simp [relayRun, hm], hm⟩
    · have hm' : m.isTerminal = false := by simpa using hm
      constructor
      · have h1 := ih.1
        simp only [relayRun, hm', Bool.false_eq_true, if_false, List.cons_append]
        exact congrArg (m :: ·) h1
      · intro hne
        have hne' : (relayRun rest).2 ≠ [] := by
          simpa [relayRun, hm'] using hne
        obtain ⟨front, t, hfr, htt⟩ := ih.2 hne'
        exact ⟨m :: front, t, by simp [relayRun, hm', hfr], htt⟩

theorem c3_witness :
    [chunkMsg 0, statusMsg "Error" 1, chunkMsg 2] =
      (relayRun [chunkMsg 0, statusMsg "Error" 1, chunkMsg 2]).1 ++
        (relayRun [chunkMsg 0, statusMsg "Error" 1, chunkMsg 2]).2 ∧
    ∃ front t,
      (relayRun [chunkMsg 0, statusMsg "Error" 1, chunkMsg 2]).1 = front ++ [t] ∧
        t.isTerminal = true :=
  ⟨(c3_order_preservation [chunkMsg 0, statusMsg "Error" 1, chunkMsg 2]).1,
   (c3_order_preservation [chunkMsg 0, statusMsg "Error" 1, chunkMsg 2]).2 (by decide)⟩

/-- C5: a `stop` received while an interaction is active requests
cancellation of exactly the worker task and immediately clears the stored
worker handle (clearing the reader/queue references as well), acknowledges
with an info message, and does not cancel the relay task: no cancellation
is requested for any reader task distinct from the worker. -/
theorem c5_stop_active_cancels_worker_only (a : Alpaca) (s : Session)
    (w : TaskHandle) (hw : s.currentInteractionTask = some w)
    (hd : w.done = false) :
    step (some a) s .stop =
      ({ s with currentInteractionTask := none, queueReaderTask := none,
                interactionQueue := none },
       { emptyEffects with
           cancelRequests := [w.id],
           sent := [.info "Stop command processed. Interaction cancelled."] }) ∧
    (∀ r : TaskHandle, s.queueReaderTask = some r → r.id ≠ w.id →
      r.id ∉ (step (some a) s .stop).2.cancelRequests) := by
  constructor
  · simp [step, handleStop, hw, hd]
  · intro r _ hne
    simp [step, handleStop, hw, hd, hne]

theorem c5_witness :
    busySession.currentInteractionTask = some ⟨2, false⟩ ∧
    (step (some alpacaOk) busySession .stop =
      ({ busySession with currentInteractionTask := none, queueReaderTask := none,
                          interactionQueue := none },
       { emptyEffects with
           cancelRequests := [2],
           sent := [.info "Stop command processed. Interaction cancelled."] }) ∧
     (∀ r : TaskHandle, busySession.queueReaderTask = some r → r.id ≠ 2 →
        r.id ∉ (step (some alpacaOk) busySession .stop).2.cancelRequests)) :=
  ⟨rfl, c5_stop_active_cancels_worker_only alpacaOk busySession ⟨2, false⟩ rfl rfl⟩

/-- C6 counterexample: with a completed worker handle still stored (no
interaction is active, `busy = false`), a `stop` cancels nothing and is
acknowledged with the nothing-active status, but it does change the session
state — the stale handle references are cleared — refuting the claim that
no session state changes. -/
theorem c6_counterexample :
    staleSession.busy = false ∧
    (step (some alpacaOk) staleSession .stop).2.cancelRequests = [] ∧
    (step (some alpacaOk) staleSession .stop).2.sent =
      [.status "Idle" (some "Stop command received, nothing active to stop.") none] ∧
    (step (some alpacaOk) staleSession .stop).1 ≠ staleSession := by
  refine ⟨rfl, rfl, rfl, by decide⟩

/-- C6 (amended): a `stop` received when no interaction is active cancels
nothing, spawns nothing, and is acknowledged with a status event saying
nothing was active (not an error); it resets the stored worker/reader/queue
references to `none` — the only state change — and the session remains not
busy. -/
theorem c6_stop_idle_acknowledged (a : Alpaca) (s : Session)
    (h : s.busy = false) :
    step (some a) s .stop =
      ({ s with currentInteractionTask := none, queueReaderTask := none,
                interactionQueue := none },
       { emptyEffects with
           sent := [.status "Idle"
                      (some "Stop command received, nothing active to stop.") none] }) ∧
    (step (some a) s .stop).1.busy = false := by
  cases hct : s.currentInteractionTask with
  | none => simp [step, handleStop, hct, Session.busy]
  | some t =>
    have hd : t.done = true := by
      have h2 := h
      simp [Session.busy, hct] at h2
      exact h2
    simp [step, handleStop, hct, hd, Session.busy]

theorem c6_witness :
    staleSession.busy = false ∧
    (step (some alpacaOk) staleSession .stop =
      ({ staleSession with currentInteractionTask := none, queueReaderTask := none,
                           interactionQueue := none },
       { emptyEffects with
           sent := [.status "Idle"
                      (some "Stop command received, nothing active to stop.") none] }) ∧
     (step (some alpacaOk) staleSession .stop).1.busy = false) :=
  ⟨rfl, c6_stop_idle_acknowledged alpacaOk staleSession rfl⟩

/-- C7 counterexample: a `send_text` with empty text received while an
interaction is active is answered with the empty-text error event (whose
state field is "Idle"), not with a Busy error — the empty-text check
precedes the busy check — refuting the claim for every `send_text` while
active. -/
theorem c7_counterexample :
    busySession.busy = true ∧
    step (some alpacaOk) busySession (.sendText (some "")) =
      (busySession,
       { emptyEffects with
           sent := [.error "Received empty text for \x27send_text\x27 action."
                      (some "Idle")] }) :=
  ⟨rfl, rfl⟩

/-- C7 (amended): a `send_text` with non-empty text received while an
interaction is active fails with a Busy error event, runs no text
interaction (nothing else is sent, nothing spawned) and leaves the session
state unchanged; with empty text the empty-input error is reported instead. -/
theorem c7_sendtext_busy_rejected (a : Alpaca) (s : Session) (txt : String)
    (hb : s.busy = true) (ht : ¬txt = "") :
    step (some a) s (.sendText (some txt)) =
      (s, { emptyEffects with
              sent := [.error "Cannot send text while voice interaction is active."
                         (some "Busy")] }) := by
  simp [step, handleSendText, emptyText, ht, hb]

theorem c7_witness :
    busySession.busy = true ∧ ¬"hello" = "" ∧
    step (some alpacaOk) busySession (.sendText (some "hello")) =
      (busySession,
       { emptyEffects with
           sent := [.error "Cannot send text while voice interaction is active."
                      (some "Busy")] }) :=
  ⟨rfl, by decide,
   c7_sendtext_busy_rejected alpacaOk busySession "hello" rfl (by decide)⟩

/-- C8: a `send_text` whose text field is absent or empty is immediately
answered with the empty-input error event, the session state is unchanged
(remaining Idle: not busy before implies not busy after), and no tasks are
spawned, no queue created, no cancellation requested. -/
theorem c8_empty_text_rejected (a : Alpaca) (s : Session) (t : Option String)
    (he : emptyText t = true) (hb : s.busy = false) :
    step (some a) s (.sendText t) =
      (s, { emptyEffects with
              sent := [.error "Received empty text for \x27send_text\x27 action."
                         (some "Idle")] }) ∧
    (step (some a) s (.sendText t)).1.busy = false := by
  constructor
  · simp [step, handleSendText, he]
  · simp [step, handleSendText, he, hb]

theorem c8_witness :
    emptyText (some "") = true ∧ idleSession.busy = false ∧
    (step (some alpacaOk) idleSession (.sendText (some "")) =
      (idleSession,
       { emptyEffects with
           sent := [.error "Received empty text for \x27send_text\x27 action."
                      (some "Idle")] }) ∧
     (step (some alpacaOk) idleSession (.sendText (some ""))).1.busy = false) :=
  ⟨by decide, rfl, c8_empty_text_rejected alpacaOk idleSession (some "") (by decide) rfl⟩

/-- A status message with state "Idle", the acknowledgment the spec expects
after errors. -/
def isIdleStatus : OutMsg → Bool
  | .status st _ _ => st = "Idle"
  | _ => false

/-- Backend whose `alpaca_instance` lacks an `interaction_handler`
attribute: `send_text` raises `AttributeError` at line 341. -/
def alpacaNoHandler : Alpaca :=
  { startFailure := none, hasInteractionHandler := false,
    textRun := .ok [], hasOutputHandler := true,
    outputHandlerHasInterrupt := true, interruptRaises := false }

/-- Backend raising `AttributeError` while the voice worker task is being
created. -/
def alpacaStartAttrFail : Alpaca :=
  { startFailure := some (.attrError "no interaction_handler"),
    hasInteractionHandler := false, textRun := .ok [],
    hasOutputHandler := false, outputHandlerHasInterrupt := false,
    interruptRaises := false }

/-- Backend whose text interaction raises a generic exception after one
chunk. -/
def alpacaTextExn : Alpaca :=
  { startFailure := none, hasInteractionHandler := true,
    textRun := .exn ["partial"] "boom", hasOutputHandler := true,
    outputHandlerHasInterrupt := true, interruptRaises := false }

/-- Backend whose text interaction raises `AttributeError` immediately. -/
def alpacaTextAttr : Alpaca :=
  { startFailure := none, hasInteractionHandler := true,
    textRun := .attrError [] "missing method", hasOutputHandler := true,
    outputHandlerHasInterrupt := true, interruptRaises := false }

/-- C4 counterexample: a `send_text` hitting the missing-handler
(`AttributeError`) branch sends the Processing status and an error event
with state "Error", but no status event with state "Idle" is surfaced —
refuting the claim that every `send_text` error surfaces an Idle status. -/
theorem c4_counterexample :
    (step (some alpacaNoHandler) idleSession (.sendText (some "hello"))).2.sent =
      [.status "Processing" none none,
       .error "Server configuration error: Alpaca instance lacks an \x27interaction_handler\x27"
         (some "Error")] ∧
    ((step (some alpacaNoHandler) idleSession
        (.sendText (some "hello"))).2.sent.any isIdleStatus) = false :=
  ⟨rfl, rfl⟩

/-- C4 (amended): after an error while starting a voice interaction the
stored worker handle is cleared, so the session is not busy and a
subsequent `start` is not rejected; after a generic exception during
`send_text` an error event followed by a status event with state Idle is
sent and the session state is unchanged; after a missing-handler
(`AttributeError`) failure during `send_text` only an error event with
state Error is sent — no Idle status — and the session state is unchanged.
In every case the session is not left busy. -/
theorem c4_error_recovery :
    (∀ (a : Alpaca) (s : Session) (f : StartFailure),
      s.busy = false → a.startFailure = some f →
        (step (some a) s (.start (some "voice"))).1.currentInteractionTask = none ∧
        (step (some a) s (.start (some "voice"))).1.busy = false) ∧
    (∀ (a : Alpaca) (s : Session) (pre : List String) (msg txt : String),
      s.busy = false → ¬txt = "" → a.hasInteractionHandler = true →
      a.textRun = .exn pre msg →
        (step (some a) s (.sendText (some txt))).1 = s ∧
        (step (some a) s (.sendText (some txt))).2.sent =
          .status "Processing" none none ::
            (textChunkMsgs pre ++
              [.error ("Error processing text: " ++ msg) (some "Error"),
               .status "Idle" none none])) ∧
    (∀ (a : Alpaca) (s : Session) (pre : List String) (msg txt : String),
      s.busy = false → ¬txt = "" → a.hasInteractionHandler = true →
      a.textRun = .attrError pre msg →
        (step (some a) s (.sendText (some txt))).1 = s ∧
        (step (some a) s (.sendText (some txt))).2.sent =
          .status "Processing" none none ::
            (textChunkMsgs pre ++
              [.error ("Server configuration error: " ++ msg) (some "Error")]) ∧
        ((step (some a) s (.sendText (some txt))).2.sent.any isIdleStatus) = false) := by
  refine ⟨?_, ?_, ?_⟩
  · intro a s f hb hf
    cases f with
    | attrError msg =>
      have hmain : step (some a) s (.start (some "voice")) =
          ({ currentInteractionTask := none, queueReaderTask := none,
             interactionQueue := none, fresh := s.fresh + 2 },
           { emptyEffects with
               sent := [.error ("Server configuration error: " ++ msg) (some "Error")],
               spawnedReaders := 1, queuesCreated := 1,
               cancelRequests := [s.fresh + 1] }) := by
        simp [step, handleStart, hb, hf]
      refine ⟨?_, ?_⟩ <;> · rw [hmain]; try rfl
    | otherError msg =>
      have hmain : step (some a) s (.start (some "voice")) =
          ({ currentInteractionTask := none, queueReaderTask := none,
             interactionQueue := none, fresh := s.fresh + 2 },
           { emptyEffects with
               sent := [.error ("Failed to start interaction: " ++ msg) (some "Error")],
               spawnedReaders := 1, queuesCreated := 1,
               cancelRequests := [s.fresh + 1] }) := by
        simp [step, handleStart, hb, hf]
      refine ⟨?_, ?_⟩ <;> · rw [hmain]; try rfl
  · intro a s pre msg txt hb ht hh htr
    simp [step, handleSendText, emptyText, ht, hb, hh, htr]
  · intro a s pre msg txt hb ht hh htr
    refine ⟨?_, ?_, ?_⟩
    · simp [step, handleSendText, emptyText, ht, hb, hh, htr]
    · simp [step, handleSendText, emptyText, ht, hb, hh, htr]
    · simp only [step, handleSendText]
      simp [emptyText, ht, hb, hh, htr, isIdleStatus, textChunkMsgs,
        List.any_map, Function.comp]
      intro x c hc hne hx
      subst hx
      rfl

theorem c4_witness :
    ((step (some alpacaStartAttrFail) idleSession
        (.start (some "voice"))).1.currentInteractionTask = none ∧
     (step (some alpacaStartAttrFail) idleSession
        (.start (some "voice"))).1.busy = false) ∧
    ((step (some alpacaTextExn) idleSession (.sendText (some "hi"))).1 = idleSession ∧
     (step (some alpacaTextExn) idleSession (.sendText (some "hi"))).2.sent =
       .status "Processing" none none ::
         (textChunkMsgs ["partial"] ++
           [.error ("Error processing text: " ++ "boom") (some "Error"),
            .status "Idle" none none])) ∧
    ((step (some alpacaTextAttr) idleSession (.sendText (some "hi"))).1 = idleSession ∧
     (step (some alpacaTextAttr) idleSession (.sendText (some "hi"))).2.sent =
       .status "Processing" none none ::
         (textChunkMsgs [] ++
           [.error ("Server configuration error: " ++ "missing method") (some "Error")]) ∧
     ((step (some alpacaTextAttr) idleSession
         (.sendText (some "hi"))).2.sent.any isIdleStatus) = false) :=
  ⟨c4_error_recovery.1 alpacaStartAttrFail idleSession (.attrError "no interaction_handler")
     rfl rfl,
   c4_error_recovery.2.1 alpacaTextExn idleSession ["partial"] "boom" "hi"
     rfl (by decide) rfl rfl,
   c4_error_recovery.2.2 alpacaTextAttr idleSession [] "missing method" "hi"
     rfl (by decide) rfl rfl⟩

/-- C9 counterexample: a `start` with mode "text-stream" received when no
interaction is active does not begin an interaction — no queue is created
and nothing is spawned; the client gets an unsupported-mode error —
refuting the claim for mode "text-stream". -/
theorem c9_counterexample :
    idleSession.busy = false ∧
    step (some alpacaOk) idleSession (.start (some "text-stream")) =
      (idleSession,
       { emptyEffects with
           sent := [.error ("Unsupported start mode: " ++ "text-stream")
                      (some "Error")] }) :=
  ⟨rfl, rfl⟩

/-- C9 (amended): a `start` with mode "voice" (also the default when the
mode field is absent) received when no interaction is active and whose
worker creation raises no exception begins an interaction: a new event
queue is created and a reader (relay) and worker task pair is spawned, the
handles are stored and the session becomes busy.  Mode "text" is answered
with an informational message and any other mode — including
"text-stream" — with an unsupported-mode error; neither creates a queue or
spawns tasks. -/
theorem c9_start_voice_begins_interaction (a : Alpaca) (s : Session)
    (hb : s.busy = false) (hf : a.startFailure = none) :
    step (some a) s (.start (some "voice")) =
      ({ currentInteractionTask := some ⟨s.fresh + 2, false⟩,
         queueReaderTask := some ⟨s.fresh + 1, false⟩,
         interactionQueue := some s.fresh, fresh := s.fresh + 3 },
       { emptyEffects with
           spawnedWorkers := 1, spawnedReaders := 1, queuesCreated := 1 }) ∧
    step (some a) s (.start none) = step (some a) s (.start (some "voice")) ∧
    (step (some a) s (.start (some "voice"))).1.busy = true ∧
    step (some a) s (.start (some "text")) =
      (s, { emptyEffects with
              sent := [.info "Use \x27send_text\x27 action for text interactions."] }) ∧
    (∀ m : String, ¬m = "voice" → ¬m = "text" →
      step (some a) s (.start (some m)) =
        (s, { emptyEffects with
                sent := [.error ("Unsupported start mode: " ++ m) (some "Error")] })) := by
  have hmain : step (some a) s (.start (some "voice")) =
      ({ currentInteractionTask := some ⟨s.fresh + 2, false⟩,
         queueReaderTask := some ⟨s.fresh + 1, false⟩,
         interactionQueue := some s.fresh, fresh := s.fresh + 3 },
       { emptyEffects with
           spawnedWorkers := 1, spawnedReaders := 1, queuesCreated := 1 }) := by
    simp [step, handleStart, hb, hf]
  refine ⟨hmain, ?_, ?_, ?_, ?_⟩
  · simp [step, handleStart, hb, hf]
  · rw [hmain]; rfl
  · simp [step, handleStart, hb]
  · intro m hm1 hm2
    simp [step, handleStart, hb, hm1, hm2]

theorem c9_witness :
    idleSession.busy = false ∧
    (step (some alpacaOk) idleSession (.start (some "voice")) =
      ({ currentInteractionTask := some ⟨2, false⟩,
         queueReaderTask := some ⟨1, false⟩,
         interactionQueue := some 0, fresh := 3 },
       { emptyEffects with
           spawnedWorkers := 1, spawnedReaders := 1, queuesCreated := 1 }) ∧
     step (some alpacaOk) idleSession (.start none) =
       step (some alpacaOk) idleSession (.start (some "voice")) ∧
     (step (some alpacaOk) idleSession (.start (some "voice"))).1.busy = true ∧
     step (some alpacaOk) idleSession (.start (some "text")) =
       (idleSession,
        { emptyEffects with
            sent := [.info "Use \x27send_text\x27 action for text interactions."] }) ∧
     (∀ m : String, ¬m = "voice" → ¬m = "text" →
       step (some alpacaOk) idleSession (.start (some m)) =
         (idleSession,
          { emptyEffects with
              sent := [.error ("Unsupported start mode: " ++ m) (some "Error")] }))) :=
  ⟨rfl, c9_start_voice_begins_interaction alpacaOk idleSession rfl rfl⟩
